import Mathlib

/-!
Verification development for the `batmon` battery monitor.

The repository is shallowly embedded: the filesystem a device directory
exposes is modelled as an abstract map from attribute-file names to
optional contents (a `none` read models an I/O error), and every pure
computation of the source (`device.rs`, `poll.rs`, `status.rs`,
`battery.rs`, and the daemon notification logic of `main.rs` / `lib.rs`)
is translated into an executable Lean definition.  Rust `u64`
operations that panic under checked arithmetic (division by zero,
unsigned subtraction underflow, and multiplication overflow past
`u64::MAX`) are modelled by an `Option` result where `none` stands for
the panic.
-/

namespace Batmon

/-- Urgency levels of the notification transport (libnotify). -/
inductive Urgency where
  | Low
  | Normal
  | Critical
deriving DecidableEq, Repr

/-- `status.rs`: the `ChargingStatus` enumeration used by the
`battery.rs` variant of the design. -/
inductive ChargingStatus where
  | Charging
  | Discharging
  | Full
deriving DecidableEq, Repr

/-- `status.rs` `FromStr for ChargingStatus`: exact match on the three
literals, anything else is a parse failure. -/
def ChargingStatus.fromStr (s : String) : Option ChargingStatus :=
  if s = "Charging" then some .Charging
  else if s = "Discharging" then some .Discharging
  else if s = "Full" then some .Full
  else none

/-- ASCII whitespace, the subset of Rust's `char::is_whitespace`
relevant to sysfs attribute files. -/
def isWS (c : Char) : Bool := c = ' ' || c = '\t' || c = '\n' || c = '\r'

/-- Rust `str::trim`: strip whitespace from both ends. -/
def strTrim (s : String) : String :=
  ⟨((s.toList.dropWhile isWS).reverse.dropWhile isWS).reverse⟩

/-- Value of an ASCII decimal digit, `none` on any other character. -/
def digitVal (c : Char) : Option Nat :=
  if '0' ≤ c ∧ c ≤ '9' then some (c.toNat - '0'.toNat) else none

/-- Accumulate decimal digits; fails on the first non-digit character. -/
def parseDigitsAux (acc : Nat) : List Char → Option Nat
  | [] => some acc
  | c :: cs =>
    match digitVal c with
    | some d => parseDigitsAux (acc * 10 + d) cs
    | none => none

/-- Rust `u8::from_str` / `u64::from_str`: an optional leading `+`, then
at least one ASCII digit, value at most `bound`; anything else fails. -/
def parseUnsigned (bound : Nat) (s : String) : Option Nat :=
  let cs :=
    match s.toList with
    | '+' :: rest => rest
    | cs => cs
  match cs with
  | [] => none
  | _ =>
    match parseDigitsAux 0 cs with
    | some v => if v ≤ bound then some v else none
    | none => none

/-- `u8::from_str`. -/
def parseU8 (s : String) : Option Nat := parseUnsigned 255 s

/-- `u64::from_str`. -/
def parseU64 (s : String) : Option Nat := parseUnsigned (2 ^ 64 - 1) s

/-- The observable filesystem state of one power-supply device
directory: the result of `fs::metadata` on the directory itself
(`none` = stat error, otherwise whether it is a directory), the result
of `fs::read_to_string` for each attribute file under it, and the
result of `fs::metadata` on each attribute file. -/
structure Device where
  meta : Option Bool
  files : String → Option String
  hasFile : String → Bool

/-- `device.rs` `Device::is_system_battery`: the directory must stat as
a directory, its `type` file must read and trim to `"Battery"`, and a
readable `scope` file, if any, must trim to `"System"` (absent `scope`
is accepted). -/
def Device.isSystemBattery (d : Device) : Bool :=
  match d.meta with
  | none => false
  | some isDir =>
    if !isDir then false
    else
      match d.files "type" with
      | none => false
      | some ty =>
        if strTrim ty ≠ "Battery" then false
        else
          match d.files "scope" with
          | some s => strTrim s = "System"
          | none => true

/-- `device.rs` `Device::rating`: how many of the six telemetry files
stat successfully. -/
def Device.rating (d : Device) : Nat :=
  ([d.hasFile "current_now", d.hasFile "capacity", d.hasFile "charge_full",
    d.hasFile "charge_now", d.hasFile "cycle_count", d.hasFile "status"].filter id).length

/-- `poll.rs` `PolledValue<T>`: a cached value together with the
attribute-file name it is polled from. -/
structure PolledValue (T : Type) where
  value : T
  path : String
deriving Repr, DecidableEq

/-- Failure reasons of `PolledValue::update` (`read_to_string` error
vs. `parse` error). -/
inductive PollErr where
  | unreadable
  | unparsable
deriving DecidableEq, Repr

/-- `poll.rs` `PolledValue::update`: read the file, trim, parse; on
success replace the cached value, on read or parse failure leave it
untouched and report the failure.  The pair returned is the state of
the `PolledValue` after the call together with the error, if any. -/
def PolledValue.update {T : Type} (parse : String → Option T)
    (p : PolledValue T) (fs : Device) : PolledValue T × Option PollErr :=
  match fs.files p.path with
  | none => (p, some .unreadable)
  | some data =>
    match parse (strTrim data) with
    | none => (p, some .unparsable)
    | some v => ({ p with value := v }, none)

/-- A sequence of `update` calls against successive filesystem
snapshots (the daemon polls the same path every tick). -/
def pollRun {T : Type} (parse : String → Option T)
    (init : PolledValue T) (fss : List Device) : PolledValue T :=
  fss.foldl (fun p fs => (p.update parse fs).1) init

/-- `battery.rs` `Battery`: one `PolledValue` per attribute plus the
device name. -/
structure Battery where
  name : String
  level : PolledValue Nat
  capacity : PolledValue Nat
  charge : PolledValue Nat
  current : PolledValue Nat
  cycles : PolledValue Nat
  status : PolledValue ChargingStatus
deriving DecidableEq

/-- `battery.rs` `BatteryState`: the snapshot of the six cached
values. -/
structure BatteryState where
  level : Nat
  capacity : Nat
  charge : Nat
  current : Nat
  cycles : Nat
  status : ChargingStatus
deriving DecidableEq, Repr

/-- `battery.rs` `Battery::state`. -/
def Battery.state (b : Battery) : BatteryState :=
  { level := b.level.value, capacity := b.capacity.value,
    charge := b.charge.value, current := b.current.value,
    cycles := b.cycles.value, status := b.status.value }

/-- `battery.rs` `Battery::update`: update every attribute
independently (errors are only logged). -/
def Battery.update (b : Battery) (fs : Device) : Battery :=
  { b with
    level := (b.level.update parseU8 fs).1
    capacity := (b.capacity.update parseU64 fs).1
    charge := (b.charge.update parseU64 fs).1
    current := (b.current.update parseU64 fs).1
    status := (b.status.update ChargingStatus.fromStr fs).1
    cycles := (b.cycles.update parseU64 fs).1 }

/-- `battery.rs` `TryFrom<&Device> for Battery`: fail if the device
directory does not stat or is not a system battery; otherwise build the
battery with the default values of the source and run one `update`
pass.  `name` is the file name of the device path. -/
def Battery.tryFrom (name : String) (d : Device) : Option Battery :=
  if d.meta.isNone then none
  else if !d.isSystemBattery then none
  else
    some (Battery.update
      { name := name
        level := ⟨100, "capacity"⟩
        capacity := ⟨0, "charge_full"⟩
        charge := ⟨0, "charge_now"⟩
        current := ⟨0, "current_now"⟩
        cycles := ⟨0, "cycle_count"⟩
        status := ⟨.Full, "status"⟩ } d)

/-- Rust's `{n:0>2}` format: pad a decimal rendering to width two with
leading zeros. -/
def pad2 (n : Nat) : String :=
  if n < 10 then "0" ++ toString n else toString n

/-- The `format!("{h:0>2}:{m:0>2}:{s:0>2}")` of `Battery::remaining`,
applied to a total number of seconds exactly as the source computes
`h`, `m` and `s`. -/
def fmtHMS (t : Nat) : String :=
  pad2 (t / 60 / 60) ++ ":" ++ pad2 (t / 60 % 60) ++ ":" ++ pad2 (t % 60)

/-- `u64::MAX`. -/
def u64Max : Nat := 2 ^ 64 - 1

/-- `battery.rs` `Battery::remaining` over a snapshot.  The source
performs checked `u64` arithmetic, and the panics are modelled as
`none`, in the source's evaluation order: `(capacity - charge)` panics
when `charge > capacity`, the `* 60 * 60` panics when the product
exceeds `u64::MAX` (the product exceeds it exactly when the final
product over `Nat` does, since the intermediate `* 60` is a factor of
it), and `/ current` panics when `current = 0`. -/
def BatteryState.remaining (b : BatteryState) : Option String :=
  match b.status with
  | .Full => some "Full"
  | .Discharging =>
    if u64Max < b.charge * 60 * 60 then none
    else if b.current = 0 then none
    else some (fmtHMS (b.charge * 60 * 60 / b.current))
  | .Charging =>
    if b.capacity < b.charge then none
    else if u64Max < (b.capacity - b.charge) * 60 * 60 then none
    else if b.current = 0 then none
    else some (fmtHMS ((b.capacity - b.charge) * 60 * 60 / b.current))

/-! ## Discovery (`battery.rs` `Battery::find`, `Battery::new`,
`Battery::load_cached_battery`) -/

/-- The observable filesystem state `Battery::find` interacts with:
whether `fs::metadata("/tmp/batmon-battery")` succeeds, the content of
that cache file if readable, the listing of `/sys/class/power_supply`
if `read_dir` succeeds (names of the entries), the device directory
behind each name, and whether the `fs::write` of the cache would
succeed (the source discards that result). -/
structure SysEnv where
  cacheMeta : Bool
  cacheContent : Option String
  dirListing : Option (List String)
  devices : String → Device
  cacheWriteOk : Bool

/-- Outcome of `Battery::find`, instrumented with whether the
power-supply root was enumerated and which name, if any, was written to
the cache file. -/
structure FindResult where
  battery : Option Battery
  enumerated : Bool
  cacheWrite : Option String

/-- `battery.rs` `Battery::new`: build the device path from the trimmed
name and attempt construction; the battery's name is the file name of
that path, i.e. the trimmed name. -/
def batteryNew (devices : String → Device) (name : String) : Option Battery :=
  Battery.tryFrom (strTrim name) (devices (strTrim name))

/-- `battery.rs` `Battery::load_cached_battery`: read the cache file
and feed its content to `Battery::new`. -/
def loadCachedBattery (devices : String → Device) (cacheContent : Option String) :
    Option Battery :=
  cacheContent.bind (batteryNew devices)

/-- Stable ascending insertion by rating: the element is placed before
the first element of greater-or-equal rating.  Since `sortAsc` inserts
each input element into the sorted remainder of the input, an element
ends up before every equal-rated element that followed it in the
input, reproducing the stable ascending order of Rust's stable
`sort_by_key`. -/
def insertAsc (x : String × Nat) : List (String × Nat) → List (String × Nat)
  | [] => [x]
  | y :: ys => if y.2 < x.2 then y :: insertAsc x ys else x :: y :: ys

/-- Stable ascending sort by rating (`devices.sort_by_key(|d| d.1)`). -/
def sortAsc : List (String × Nat) → List (String × Nat)
  | [] => []
  | x :: xs => insertAsc x (sortAsc xs)

/-- The surviving candidates of the enumeration: every listed name
whose device classifies as a system battery, paired with its rating. -/
def candidates (devices : String → Device) (names : List String) :
    List (String × Nat) :=
  names.filterMap fun n =>
    let d := devices n
    if d.isSystemBattery then some (n, d.rating) else none

/-- The selection loop of `Battery::find`: try `Battery::try_from` on
each candidate in order and return the first success. -/
def firstBattery (devices : String → Device) : List (String × Nat) → Option Battery
  | [] => none
  | (n, _) :: rest =>
    match Battery.tryFrom n (devices n) with
    | some b => some b
    | none => firstBattery devices rest

/-- The enumeration path of `Battery::find`: list the power-supply
root, classify and rate, sort ascending by rating, select the first
candidate that constructs, and write its name to the cache
(best-effort). -/
def findEnumerate (devices : String → Device) (dirListing : Option (List String)) :
    FindResult :=
  match dirListing with
  | none => ⟨none, true, none⟩
  | some names =>
    match firstBattery devices (sortAsc (candidates devices names)) with
    | some b => ⟨some b, true, some b.name⟩
    | none => ⟨none, true, none⟩

/-- `battery.rs` `Battery::find`: fast path through the cache file when
it stats and yields a working battery, otherwise full enumeration.
The `cacheWriteOk` field of the environment is never consulted: the
source discards the result of the cache `fs::write`. -/
def Battery.find (env : SysEnv) : FindResult :=
  if env.cacheMeta then
    match loadCachedBattery env.devices env.cacheContent with
    | some b => ⟨some b, false, none⟩
    | none => findEnumerate env.devices env.dirListing
  else findEnumerate env.devices env.dirListing

/-! ## Daemon notification logic (`main.rs`, over the `lib.rs`
`Battery`/`BatteryStatus` variant) -/

/-- `lib.rs` `BatteryStatus`. -/
inductive BatteryStatus where
  | Charging
  | Discharging
  | Full
deriving DecidableEq, Repr

/-- A notification event: title and urgency as passed to libnotify.
The body strings of the source (device name and remaining time) are
not modelled; the claims only concern titles and urgencies. -/
structure Notif where
  title : String
  urgency : Urgency
deriving DecidableEq, Repr

/-- The `match (old_state, battery.status)` of
`update_battery_and_notify` in `main.rs`: only the three listed
transitions build a notification; every other pair falls into the
wildcard arm and emits nothing. -/
def statusNotif : BatteryStatus → BatteryStatus → Option Notif
  | .Discharging, .Charging => some ⟨"Charging", .Low⟩
  | .Charging, .Discharging => some ⟨"Discharging", .Normal⟩
  | .Charging, .Full => some ⟨"Battery full", .Low⟩
  | _, _ => none

/-- The level-threshold `if`/`else if` chain of
`update_battery_and_notify` in `main.rs`. -/
def levelNotif (oldLevel newLevel : Nat) : Option Notif :=
  if oldLevel > 50 then
    if newLevel ≤ 50 then some ⟨"Battery at half", .Low⟩ else none
  else if oldLevel > 25 then
    if newLevel ≤ 25 then some ⟨"Battery low", .Normal⟩ else none
  else if oldLevel > 10 then
    if newLevel ≤ 10 then some ⟨"Battery critical", .Critical⟩ else none
  else none

/-- The notifications one call of `update_battery_and_notify` builds,
in dispatch order: the status-transition notification, then the
level-threshold one. -/
def tickNotifs (old new : BatteryStatus × Nat) : List Notif :=
  (statusNotif old.1 new.1).toList ++ (levelNotif old.2 new.2).toList

/-- Sequential dispatch with the `?` operator on `Notification::show`:
each successful show is recorded; the first failing show aborts the
rest of the dispatch.  Returns the successfully shown notifications
and whether the whole dispatch succeeded. -/
def dispatch (showOk : Notif → Bool) : List Notif → List Notif × Bool
  | [] => ([], true)
  | n :: rest =>
    if showOk n then
      let r := dispatch showOk rest
      (n :: r.1, r.2)
    else ([], false)

/-- `main.rs` `update_battery_and_notify`, abstracted over the pre- and
post-`update()` (status, level) pairs and the show outcomes. -/
def updateBatteryAndNotify (old new : BatteryStatus × Nat)
    (showOk : Notif → Bool) : List Notif × Bool :=
  dispatch showOk (tickNotifs old new)

/-- One daemon tick: the (status, level) state `Battery::update` leaves
behind, and the show outcomes of the notification transport during
that tick. -/
structure Tick where
  newStatus : BatteryStatus
  newLevel : Nat
  showOk : Notif → Bool

/-- The daemon arm of `run` in `main.rs`:
`loop { update_battery_and_notify(&mut bat)?; ... sleep ... }`.
Processing a finite schedule of ticks, each tick dispatches its
notifications; if a dispatch fails, the `?` propagates the error out of
the loop and no further tick runs.  Returns the per-tick lists of shown
notifications and whether the loop survived the schedule. -/
def runDaemon : BatteryStatus × Nat → List Tick → List (List Notif) × Bool
  | _, [] => ([], true)
  | old, t :: rest =>
    let r := updateBatteryAndNotify old (t.newStatus, t.newLevel) t.showOk
    if r.2 then
      let next := runDaemon (t.newStatus, t.newLevel) rest
      (r.1 :: next.1, next.2)
    else ([r.1], false)

/-! ## Spec-side definitions (for refinement comparisons) and concrete
fixtures used by witnesses and counterexamples -/

/-- Spec-side status-edge rule, written from the amended wording of the
status-edge claim: exactly the three transitions Discharging→Charging,
Charging→Discharging and Charging→Full emit a notification; every
other pair of statuses, changed or not, emits none. -/
def statusNotifSpec (old new : BatteryStatus) : Option Notif :=
  if old = .Discharging ∧ new = .Charging then some ⟨"Charging", .Low⟩
  else if old = .Charging ∧ new = .Discharging then some ⟨"Discharging", .Normal⟩
  else if old = .Charging ∧ new = .Full then some ⟨"Battery full", .Low⟩
  else none

/-- Spec-side level rule, written from the claim's wording: the
notification of the highest threshold in {50, 25, 10} whose crossing
condition `old > threshold ∧ new ≤ threshold` holds, if any. -/
def levelNotifSpec (oldLevel newLevel : Nat) : Option Notif :=
  if oldLevel > 50 ∧ newLevel ≤ 50 then some ⟨"Battery at half", .Low⟩
  else if oldLevel > 25 ∧ newLevel ≤ 25 then some ⟨"Battery low", .Normal⟩
  else if oldLevel > 10 ∧ newLevel ≤ 10 then some ⟨"Battery critical", .Critical⟩
  else none

/-- A device directory whose `charge_full` file is unreadable while
`charge_now`, `current_now` and `status` read successfully: the
construction path that leaves `capacity` at its default 0 below a
positive `charge`. -/
def zeroCapDevice : Device :=
  { meta := some true
    files := fun f =>
      if f = "type" then some "Battery"
      else if f = "charge_now" then some "5"
      else if f = "current_now" then some "1"
      else if f = "status" then some "Charging"
      else none
    hasFile := fun _ => false }

/-- The battery `Battery::try_from` builds from `zeroCapDevice`. -/
def zeroCapBattery : Battery :=
  { name := "BAT0"
    level := ⟨100, "capacity"⟩
    capacity := ⟨0, "charge_full"⟩
    charge := ⟨5, "charge_now"⟩
    current := ⟨1, "current_now"⟩
    cycles := ⟨0, "cycle_count"⟩
    status := ⟨.Charging, "status"⟩ }

/-- A single-attribute filesystem used to exercise `PolledValue::update`
on a concrete readable file. -/
def oneFileDevice : Device :=
  ⟨some true, fun f => if f = "f" then some " 42 " else none, fun _ => false⟩

/-- A fully populated battery device directory. -/
def devBAT0 : Device :=
  { meta := some true
    files := fun f =>
      if f = "type" then some "Battery"
      else if f = "capacity" then some "80"
      else if f = "charge_full" then some "4000"
      else if f = "charge_now" then some "3200"
      else if f = "current_now" then some "800"
      else if f = "cycle_count" then some "10"
      else if f = "status" then some "Discharging"
      else none
    hasFile := fun f =>
      ["capacity", "charge_full", "charge_now", "current_now",
       "cycle_count", "status"].contains f }

/-- A sparsely populated battery device directory (rating 1). -/
def devBAT1 : Device :=
  { meta := some true
    files := fun f =>
      if f = "type" then some "Battery"
      else if f = "status" then some "Charging"
      else none
    hasFile := fun f => f = "status" }

/-- A mains power-supply directory (rejected by classification). -/
def devAC : Device :=
  { meta := some true
    files := fun f => if f = "type" then some "Mains" else none
    hasFile := fun _ => false }

/-- Device map of the concrete discovery environments. -/
def demoDevices : String → Device :=
  fun n =>
    if n = "BAT0" then devBAT0
    else if n = "BAT1" then devBAT1
    else if n = "AC" then devAC
    else ⟨none, fun _ => none, fun _ => false⟩

/-- Discovery environment with no usable cache and three devices. -/
def envNoCache : SysEnv :=
  { cacheMeta := false
    cacheContent := none
    dirListing := some ["AC", "BAT1", "BAT0"]
    devices := demoDevices
    cacheWriteOk := true }

/-- The same machine after the first discovery run persisted "BAT1" to
the cache file. -/
def envCached : SysEnv :=
  { cacheMeta := true
    cacheContent := some "BAT1"
    dirListing := some ["AC", "BAT1", "BAT0"]
    devices := demoDevices
    cacheWriteOk := true }

/-- The battery discovery selects in `envNoCache`: the lowest-rated
surviving candidate, `BAT1`, after its construction-time update. -/
def batBAT1 : Battery :=
  { name := "BAT1"
    level := ⟨100, "capacity"⟩
    capacity := ⟨0, "charge_full"⟩
    charge := ⟨0, "charge_now"⟩
    current := ⟨0, "current_now"⟩
    cycles := ⟨0, "cycle_count"⟩
    status := ⟨.Charging, "status"⟩ }

/-! ## Theorems -/

/-- Claim C1 (counterexample): the status edge Full→Discharging is a
status change, yet the tick emits no notification at all — refuting
that every status change emits exactly one notification determined by
the new status (which would here be a "Discharging" notification). -/
theorem C1_counterexample :
    BatteryStatus.Full ≠ BatteryStatus.Discharging ∧
    updateBatteryAndNotify (BatteryStatus.Full, 100) (BatteryStatus.Discharging, 100)
      (fun _ => true) = ([], true) :=
  ⟨by decide, rfl⟩

/-- Claim C1 (amended): a daemon tick emits a status-change
notification exactly for the three transitions
Discharging→Charging ("Charging", urgency Low),
Charging→Discharging ("Discharging", urgency Normal) and
Charging→Full ("Battery full", urgency Low); every other pair of
statuses — unchanged or changed, such as Full→Discharging — emits no
status notification.  In particular the tick Discharging→Charging
emits exactly one "Charging" notification and zero "Discharging"
notifications. -/
theorem C1_status_edges :
    (∀ old new : BatteryStatus, statusNotif old new = statusNotifSpec old new) ∧
    updateBatteryAndNotify (BatteryStatus.Discharging, 100) (BatteryStatus.Charging, 100)
      (fun _ => true) = ([⟨"Charging", Urgency.Low⟩], true) := by
  refine ⟨fun old new => ?_, rfl⟩
  cases old <;> cases new <;> rfl

/-- Claim C2: at the failing input status=Discharging, charge=1800,
current=0, the division `charge * 60 * 60 / current` of
`Battery::remaining` is an unguarded divide-by-zero: the source panics
(modelled `none`) and has no `InsufficientData` error channel at all
(its return type is a plain `String`). -/
theorem C2_zero_current_no_error :
    BatteryState.remaining ⟨50, 4000, 1800, 0, 0, .Discharging⟩ = none := rfl

/-- Claim C3 (counterexample): a schedule of two ticks where the first
tick's notification fails to display.  The daemon loop processes only
the first tick (one entry in the trace) and exits with the error: the
next tick does not run, refuting that a display failure spares the
daemon loop. -/
theorem C3_counterexample :
    runDaemon (BatteryStatus.Discharging, 100)
      [⟨.Charging, 100, fun _ => false⟩, ⟨.Discharging, 100, fun _ => true⟩]
      = ([[]], false) ∧
    updateBatteryAndNotify (BatteryStatus.Charging, 100) (BatteryStatus.Discharging, 100)
      (fun _ => true) = ([⟨"Discharging", Urgency.Normal⟩], true) :=
  ⟨rfl, rfl⟩

/-- Claim C3 (amended): when a notification fails to display during a
daemon tick, the failure aborts that tick's remaining notification
dispatch AND terminates the daemon loop: the error of
`update_battery_and_notify` is propagated by `?` out of the `loop` in
`run`, so no further tick is processed. -/
theorem C3_failure_terminates (old : BatteryStatus × Nat) (t : Tick) (rest : List Tick)
    (h : (updateBatteryAndNotify old (t.newStatus, t.newLevel) t.showOk).2 = false) :
    runDaemon old (t :: rest) =
      ([(updateBatteryAndNotify old (t.newStatus, t.newLevel) t.showOk).1], false) ∧
    ∀ (showOk : Notif → Bool) (n : Notif) (ns : List Notif),
      showOk n = false → dispatch showOk (n :: ns) = ([], false) := by
  constructor
  · simp [runDaemon, h]
  · intro showOk n ns hn
    simp [dispatch, hn]

/-- Claim C3 witness: the amended theorem applied to the concrete
failing schedule. -/
theorem C3_failure_terminates_witness :
    runDaemon (BatteryStatus.Discharging, 100)
      [⟨.Charging, 100, fun _ => false⟩, ⟨.Discharging, 60, fun _ => true⟩]
      = ([[]], false) :=
  (C3_failure_terminates (BatteryStatus.Discharging, 100)
    ⟨.Charging, 100, fun _ => false⟩ [⟨.Discharging, 60, fun _ => true⟩] rfl).1

/-- Claim C5: the level-threshold `if`/`else if` chain of
`update_battery_and_notify` emits, for every pre/post level pair, at
most one notification, namely the one of the highest threshold in
{50 ("Battery at half", Low), 25 ("Battery low", Normal),
10 ("Battery critical", Critical)} whose crossing condition
`old > t ∧ new ≤ t` holds; in particular the tick 60→40 emits exactly
the threshold-50 notification. -/
theorem C5_level_threshold :
    (∀ oldL newL : Nat, levelNotif oldL newL = levelNotifSpec oldL newL) ∧
    updateBatteryAndNotify (BatteryStatus.Discharging, 60) (BatteryStatus.Discharging, 40)
      (fun _ => true) = ([⟨"Battery at half", Urgency.Low⟩], true) := by
  refine ⟨fun oldL newL => ?_, rfl⟩
  unfold levelNotif levelNotifSpec
  split_ifs <;> first | rfl | omega

/-- Claim C6: `Battery::remaining` returns the literal "Full" on
status Full; on Discharging (with a nonzero current — the zero-current
panic of claim C2 — and `charge * 3600` within `u64`) it formats
`charge * 3600 / current` seconds, and on Charging (additionally with
`charge ≤ capacity`, the underflow of claim C10, and the difference
times 3600 within `u64`) it formats
`(capacity - charge) * 3600 / current` seconds, as `HH:MM:SS` with
zero-padded two-digit fields and unbounded hours.  In particular
Discharging with charge 1800 and current 900 yields "02:00:00". -/
theorem C6_remaining_format (b : BatteryState) :
    (b.status = .Full → b.remaining = some "Full") ∧
    (b.status = .Discharging → b.current ≠ 0 → b.charge * 60 * 60 ≤ u64Max →
      b.remaining = some (fmtHMS (b.charge * 60 * 60 / b.current))) ∧
    (b.status = .Charging → b.current ≠ 0 → b.charge ≤ b.capacity →
      (b.capacity - b.charge) * 60 * 60 ≤ u64Max →
      b.remaining = some (fmtHMS ((b.capacity - b.charge) * 60 * 60 / b.current))) ∧
    (∀ t : Nat, fmtHMS t =
      pad2 (t / 60 / 60) ++ ":" ++ pad2 (t / 60 % 60) ++ ":" ++ pad2 (t % 60)) ∧
    BatteryState.remaining ⟨50, 4000, 1800, 900, 0, .Discharging⟩ = some "02:00:00" := by
  refine ⟨?_, ?_, ?_, fun t => rfl, rfl⟩
  · intro h
    simp [BatteryState.remaining, h]
  · intro h hc hov
    have hov' : ¬ u64Max < b.charge * 60 * 60 := by omega
    simp [BatteryState.remaining, h, hc, hov']
  · intro h hc hle hov
    have hsub : ¬ b.capacity < b.charge := by omega
    have hov' : ¬ u64Max < (b.capacity - b.charge) * 60 * 60 := by omega
    simp [BatteryState.remaining, h, hc, hsub, hov']

/-- Claim C6 witness: the theorem applied at the concrete Discharging
state of the claim. -/
theorem C6_remaining_format_witness :
    BatteryState.remaining ⟨50, 4000, 1800, 900, 0, .Discharging⟩ = some "02:00:00" := by
  have h := (C6_remaining_format ⟨50, 4000, 1800, 900, 0, .Discharging⟩).2.1 rfl
    (by decide) (by decide)
  exact h

/-- Claim C10 (counterexample): at capacity `u64::MAX`, charge 0 and
current 1 — a state every field of which a `u64` attribute file can
supply — the status is Charging, the current is positive and
`charge ≤ capacity` holds, yet `remaining` panics
(`(capacity - charge) * 60 * 60` overflows `u64`) instead of returning
a formatted duration: `charge ≤ capacity` and `0 < current` alone do
not make the Charging case total. -/
theorem C10_counterexample :
    (0 : Nat) < 1 ∧ (0 : Nat) ≤ u64Max ∧
    BatteryState.remaining ⟨100, u64Max, 0, 1, 0, .Charging⟩ = none := by
  refine ⟨by decide, by decide, ?_⟩
  rfl

/-- Claim C10 (amended): on status Charging, `Battery::remaining` is
total under `0 < current`, `charge ≤ capacity` and the absence of
`u64` overflow in `(capacity - charge) * 3600`; `charge ≤ capacity`
is necessary — at capacity 0 and charge 5 the unsigned subtraction
`capacity - charge` underflows (a panic, modelled `none`) — and that
state is reachable through `Battery::try_from` on a device whose
`charge_full` file is unreadable (capacity keeps its default 0) while
`charge_now`, `current_now` and `status` read successfully. -/
theorem C10_charging_total :
    (∀ b : BatteryState, b.status = .Charging → 0 < b.current → b.charge ≤ b.capacity →
      (b.capacity - b.charge) * 60 * 60 ≤ u64Max → (b.remaining).isSome = true) ∧
    BatteryState.remaining ⟨100, 0, 5, 1, 0, .Charging⟩ = none ∧
    Battery.tryFrom "BAT0" zeroCapDevice = some zeroCapBattery ∧
    zeroCapBattery.state = ⟨100, 0, 5, 1, 0, .Charging⟩ ∧
    (zeroCapBattery.state).remaining = none := by
  refine ⟨fun b h hc hle hov => ?_, rfl, by decide, rfl, rfl⟩
  have h1 : ¬ b.capacity < b.charge := by omega
  have h2 : ¬ u64Max < (b.capacity - b.charge) * 60 * 60 := by omega
  have h3 : ¬ b.current = 0 := by omega
  simp [BatteryState.remaining, h, h1, h2, h3]

/-- Claim C10 witness: totality applied at a concrete well-formed
charging state. -/
theorem C10_charging_total_witness :
    (BatteryState.remaining ⟨50, 4000, 1000, 500, 3, .Charging⟩).isSome = true :=
  C10_charging_total.1 ⟨50, 4000, 1000, 500, 3, .Charging⟩ rfl (by decide) (by decide)
    (by decide)

/-- `PolledValue::update` never changes the polled path. -/
theorem update_path {T : Type} (parse : String → Option T)
    (p : PolledValue T) (fs : Device) : ((p.update parse fs).1).path = p.path := by
  unfold PolledValue.update
  split
  · rfl
  · split
    · rfl
    · rfl

/-- A successful read-and-parse replaces the cached value. -/
theorem update_some {T : Type} (parse : String → Option T)
    (p : PolledValue T) (fs : Device) (data : String) (v : T)
    (hread : fs.files p.path = some data) (hp : parse (strTrim data) = some v) :
    p.update parse fs = ({ p with value := v }, none) := by
  unfold PolledValue.update
  rw [hread]
  simp only [hp]

/-- An unreadable file leaves the `PolledValue` untouched. -/
theorem update_unreadable {T : Type} (parse : String → Option T)
    (p : PolledValue T) (fs : Device) (hread : fs.files p.path = none) :
    p.update parse fs = (p, some .unreadable) := by
  unfold PolledValue.update
  rw [hread]

/-- Unparsable content leaves the `PolledValue` untouched. -/
theorem update_unparsable {T : Type} (parse : String → Option T)
    (p : PolledValue T) (fs : Device) (data : String)
    (hread : fs.files p.path = some data) (hp : parse (strTrim data) = none) :
    p.update parse fs = (p, some .unparsable) := by
  unfold PolledValue.update
  rw [hread]
  simp only [hp]

/-- `filterMap` drops a cons whose head maps to `none`. -/
theorem filterMap_cons_eq_none {α β : Type} (f : α → Option β) (a : α) (l : List α)
    (h : f a = none) : (a :: l).filterMap f = l.filterMap f := by
  simp [List.filterMap_cons, h]

/-- `filterMap` keeps a cons whose head maps to `some b`. -/
theorem filterMap_cons_eq_some {α β : Type} (f : α → Option β) (a : α) (l : List α)
    (b : β) (h : f a = some b) : (a :: l).filterMap f = b :: l.filterMap f := by
  simp [List.filterMap_cons, h]

/-- `getLast?` with default over a cons: the head becomes the new
default. -/
theorem getLastD_cons {α : Type} : ∀ (l : List α) (x d : α),
    ((x :: l).getLast?).getD d = (l.getLast?).getD x
  | [], _, _ => rfl
  | y :: ys, x, d => by
    rw [List.getLast?_cons_cons]
    exact (getLastD_cons ys y d).trans (getLastD_cons ys y x).symm

/-- The cached value after a run of updates is the last successfully
parsed read, or the initial value if no read ever parsed. -/
theorem pollRun_value {T : Type} (parse : String → Option T) :
    ∀ (fss : List Device) (init : PolledValue T),
    (pollRun parse init fss).value =
      ((fss.filterMap fun f => (f.files init.path).bind fun d => parse (strTrim d)).getLast?).getD
        init.value
  | [], _ => rfl
  | fs :: fss, init => by
    have hfold : pollRun parse init (fs :: fss) =
        pollRun parse ((init.update parse fs).1) fss := rfl
    cases hread : fs.files init.path with
    | none =>
      have hupd : (init.update parse fs).1 = init :=
        congrArg Prod.fst (update_unreadable parse init fs hread)
      have hg : ((fs.files init.path).bind fun d => parse (strTrim d)) = none := by
        rw [hread]; rfl
      rw [hfold, hupd,
        filterMap_cons_eq_none (fun f => (f.files init.path).bind fun d => parse (strTrim d))
          fs fss hg]
      exact pollRun_value parse fss init
    | some data =>
      cases hp : parse (strTrim data) with
      | none =>
        have hupd : (init.update parse fs).1 = init :=
          congrArg Prod.fst (update_unparsable parse init fs data hread hp)
        have hg : ((fs.files init.path).bind fun d => parse (strTrim d)) = none := by
          rw [hread]; exact hp
        rw [hfold, hupd,
          filterMap_cons_eq_none (fun f => (f.files init.path).bind fun d => parse (strTrim d))
            fs fss hg]
        exact pollRun_value parse fss init
      | some v =>
        have hupd : (init.update parse fs).1 = { init with value := v } :=
          congrArg Prod.fst (update_some parse init fs data v hread hp)
        have hg : ((fs.files init.path).bind fun d => parse (strTrim d)) = some v := by
          rw [hread]; exact hp
        have hstep := pollRun_value parse fss { init with value := v }
        rw [hfold, hupd,
          filterMap_cons_eq_some (fun f => (f.files init.path).bind fun d => parse (strTrim d))
            fs fss v hg, getLastD_cons]
        exact hstep

/-- Claim C4: `PolledValue::update` on a readable file whose trimmed
content parses replaces the cached value and reports success; on an
unreadable file or unparsable content it leaves the cached value
exactly unchanged and reports the failure; consequently, over any
sequence of updates, the cached value is always the last successfully
parsed read or the initial value if no read ever succeeded. -/
theorem C4_polled_value (T : Type) (parse : String → Option T)
    (p : PolledValue T) (fs : Device) :
    (∀ data v, fs.files p.path = some data → parse (strTrim data) = some v →
      p.update parse fs = ({ p with value := v }, none)) ∧
    (fs.files p.path = none → p.update parse fs = (p, some .unreadable)) ∧
    (∀ data, fs.files p.path = some data → parse (strTrim data) = none →
      p.update parse fs = (p, some .unparsable)) ∧
    (∀ (init : PolledValue T) (fss : List Device),
      (pollRun parse init fss).value =
        ((fss.filterMap fun f => (f.files init.path).bind fun d =>
          parse (strTrim d)).getLast?).getD init.value) :=
  ⟨fun data v hread hp => update_some parse p fs data v hread hp,
   fun hread => update_unreadable parse p fs hread,
   fun data hread hp => update_unparsable parse p fs data hread hp,
   fun init fss => pollRun_value parse fss init⟩

/-- Claim C4 witness: a concrete successful update, the file " 42 "
parsing to 42 and replacing the initial 0. -/
theorem C4_polled_value_witness :
    PolledValue.update parseU64 ⟨0, "f"⟩ oneFileDevice = (⟨42, "f"⟩, none) :=
  (C4_polled_value Nat parseU64 ⟨0, "f"⟩ oneFileDevice).1 " 42 " 42 rfl (by decide)

/-- Claim C7: `Device::is_system_battery` returns true if and only if
the path stats as a directory, its `type` file reads and trims to
exactly "Battery", and either no readable `scope` file exists or the
`scope` file trims to "System"; every stat failure, unreadable `type`,
wrong `type` content or wrong `scope` content yields false (the
function is total — it never throws). -/
theorem C7_classify (d : Device) :
    d.isSystemBattery = true ↔
      d.meta = some true ∧
      (∃ ty, d.files "type" = some ty ∧ strTrim ty = "Battery") ∧
      (d.files "scope" = none ∨
        ∃ s, d.files "scope" = some s ∧ strTrim s = "System") := by
  unfold Device.isSystemBattery
  cases hm : d.meta with
  | none => simp
  | some isDir =>
    cases isDir with
    | false => simp
    | true =>
      cases hty : d.files "type" with
      | none => simp
      | some ty =>
        by_cases hb : strTrim ty = "Battery"
        · cases hs : d.files "scope" with
          | none => simp [hb]
          | some s => simp [hb]
        · simp [hb]

/-- `insertAsc` only moves the inserted element past its
predecessors: the result is a permutation of the cons. -/
theorem insertAsc_perm (x : String × Nat) (l : List (String × Nat)) :
    (insertAsc x l).Perm (x :: l) := by
  induction l with
  | nil => exact List.Perm.refl _
  | cons y ys ih =>
    unfold insertAsc
    split_ifs with h
    · exact (ih.cons y).trans (List.Perm.swap x y ys)
    · exact List.Perm.refl _

/-- `sortAsc` permutes its input. -/
theorem sortAsc_perm (l : List (String × Nat)) : (sortAsc l).Perm l := by
  induction l with
  | nil => exact List.Perm.refl _
  | cons x xs ih => exact (insertAsc_perm x (sortAsc xs)).trans (ih.cons x)

/-- Inserting into a rating-sorted list keeps it rating-sorted. -/
theorem pairwise_insertAsc (x : String × Nat) (l : List (String × Nat))
    (h : l.Pairwise (fun a b => a.2 ≤ b.2)) :
    (insertAsc x l).Pairwise (fun a b => a.2 ≤ b.2) := by
  induction l with
  | nil => simp [insertAsc]
  | cons y ys ih =>
    rw [List.pairwise_cons] at h
    unfold insertAsc
    split_ifs with hle
    · rw [List.pairwise_cons]
      refine ⟨?_, ih h.2⟩
      intro a ha
      rcases List.mem_cons.mp ((insertAsc_perm x ys).mem_iff.mp ha) with rfl | hmem
      · omega
      · exact h.1 a hmem
    · rw [List.pairwise_cons]
      refine ⟨?_, List.pairwise_cons.mpr h⟩
      intro a ha
      rcases List.mem_cons.mp ha with rfl | hmem
      · omega
      · have := h.1 a hmem
        omega

/-- The output of `sortAsc` is ascending in the rating component. -/
theorem sortAsc_pairwise (l : List (String × Nat)) :
    (sortAsc l).Pairwise (fun a b => a.2 ≤ b.2) := by
  induction l with
  | nil => simp [sortAsc]
  | cons x xs ih => exact pairwise_insertAsc x (sortAsc xs) ih

/-- Claim C8: without a usable cache, discovery sorts the surviving
candidates ascending by rating (the sorted list is a permutation of
the candidate list and pairwise ascending), tries construction in that
order returning the first success, persists the selected name to the
cache hint, and a cache-write failure cannot affect the result (the
environment's write-outcome field is never consulted). -/
theorem C8_discovery (env : SysEnv)
    (hc : env.cacheMeta = false ∨ loadCachedBattery env.devices env.cacheContent = none)
    (names : List String) (hd : env.dirListing = some names) :
    List.Pairwise (fun a b : String × Nat => a.2 ≤ b.2)
      (sortAsc (candidates env.devices names)) ∧
    (sortAsc (candidates env.devices names)).Perm (candidates env.devices names) ∧
    (Battery.find env).battery =
      firstBattery env.devices (sortAsc (candidates env.devices names)) ∧
    (∀ b, firstBattery env.devices (sortAsc (candidates env.devices names)) = some b →
      (Battery.find env).cacheWrite = some b.name) ∧
    (∀ w w', Battery.find { env with cacheWriteOk := w } =
             Battery.find { env with cacheWriteOk := w' }) := by
  have hfind : Battery.find env = findEnumerate env.devices env.dirListing := by
    unfold Battery.find
    rcases hc with hc | hc
    · rw [hc]
      simp
    · rw [hc]
      split_ifs <;> rfl
  refine ⟨sortAsc_pairwise _, sortAsc_perm _, ?_, ?_, fun w w' => rfl⟩
  · rw [hfind]
    unfold findEnumerate
    split
    · rename_i heq
      rw [hd] at heq
      cases heq
    · rename_i names' heq
      rw [hd] at heq
      injection heq with h
      subst h
      split
      · rename_i b heq2
        exact heq2.symm
      · rename_i heq2
        exact heq2.symm
  · intro b hfb
    rw [hfind]
    unfold findEnumerate
    split
    · rename_i heq
      rw [hd] at heq
      cases heq
    · rename_i names' heq
      rw [hd] at heq
      injection heq with h
      subst h
      rw [hfb]

/-- Claim C8 witness: in the concrete three-device environment with no
cache, discovery returns exactly the first constructible candidate of
the rating-sorted candidate list. -/
theorem C8_discovery_witness :
    (Battery.find envNoCache).battery =
      firstBattery envNoCache.devices
        (sortAsc (candidates envNoCache.devices ["AC", "BAT1", "BAT0"])) :=
  (C8_discovery envNoCache (Or.inl rfl) ["AC", "BAT1", "BAT0"] rfl).2.2.1

/-- If the enumeration path selects a battery, it persists that
battery's name to the cache hint. -/
theorem findEnumerate_cacheWrite (devices : String → Device)
    (dl : Option (List String)) (b : Battery)
    (h : (findEnumerate devices dl).battery = some b) :
    (findEnumerate devices dl).cacheWrite = some b.name := by
  unfold findEnumerate at h ⊢
  cases dl with
  | none => simp at h
  | some names =>
    dsimp only at h ⊢
    cases hfb : firstBattery devices (sortAsc (candidates devices names)) with
    | none =>
      rw [hfb] at h
      exact Option.noConfusion h
    | some b' =>
      rw [hfb] at h
      have hb : b' = b := Option.some.inj h
      show (some b'.name : Option String) = some b.name
      rw [hb]

/-- A `find` that enumerated cannot have come from the cache fast
path: it equals the enumeration result. -/
theorem find_of_enumerated (env : SysEnv)
    (h2 : (Battery.find env).enumerated = true) :
    Battery.find env = findEnumerate env.devices env.dirListing := by
  unfold Battery.find at h2 ⊢
  by_cases hm : env.cacheMeta
  · rw [if_pos hm] at h2 ⊢
    cases hl : loadCachedBattery env.devices env.cacheContent with
    | some b' =>
      rw [hl] at h2
      simp at h2
    | none => rfl
  · rw [if_neg hm]

/-- Claim C9: cache round-trip.  If a `find` run selects a battery by
full enumeration (persisting its name to the cache hint), then a
subsequent `find` run on an environment whose cache file stats and
holds exactly that persisted hint — with the named device still
present and classifying as a system battery — returns a battery of the
same name via the cache fast path, without enumerating the
power-supply root (the enumeration flag stays false). -/
theorem C9_cache_roundtrip (env1 env2 : SysEnv) (b : Battery)
    (h1 : (Battery.find env1).battery = some b)
    (h2 : (Battery.find env1).enumerated = true)
    (h3 : env2.cacheMeta = true)
    (h4 : env2.cacheContent = (Battery.find env1).cacheWrite)
    (h5 : strTrim b.name = b.name)
    (h6 : (env2.devices b.name).meta.isNone = false)
    (h7 : (env2.devices b.name).isSystemBattery = true) :
    ∃ b2, (Battery.find env2).battery = some b2 ∧ b2.name = b.name ∧
      (Battery.find env2).enumerated = false := by
  have hw : (Battery.find env1).cacheWrite = some b.name := by
    rw [find_of_enumerated env1 h2] at h1 ⊢
    exact findEnumerate_cacheWrite _ _ _ h1
  rw [hw] at h4
  have htf : Battery.tryFrom b.name (env2.devices b.name) =
      some (Battery.update
        ⟨b.name, ⟨100, "capacity"⟩, ⟨0, "charge_full"⟩, ⟨0, "charge_now"⟩,
         ⟨0, "current_now"⟩, ⟨0, "cycle_count"⟩, ⟨.Full, "status"⟩⟩
        (env2.devices b.name)) := by
    unfold Battery.tryFrom
    rw [h6, h7]
    simp
  have hload : loadCachedBattery env2.devices env2.cacheContent =
      some (Battery.update
        ⟨b.name, ⟨100, "capacity"⟩, ⟨0, "charge_full"⟩, ⟨0, "charge_now"⟩,
         ⟨0, "current_now"⟩, ⟨0, "cycle_count"⟩, ⟨.Full, "status"⟩⟩
        (env2.devices b.name)) := by
    rw [h4]
    unfold loadCachedBattery batteryNew
    change Battery.tryFrom (strTrim b.name) (env2.devices (strTrim b.name)) = _
    rw [h5]
    exact htf
  refine ⟨Battery.update
      ⟨b.name, ⟨100, "capacity"⟩, ⟨0, "charge_full"⟩, ⟨0, "charge_now"⟩,
       ⟨0, "current_now"⟩, ⟨0, "cycle_count"⟩, ⟨.Full, "status"⟩⟩
      (env2.devices b.name), ?_, rfl, ?_⟩ <;>
  · unfold Battery.find
    rw [if_pos h3, hload]

/-- Claim C9 witness: the round-trip applied to the concrete
environments — discovery without a cache selects BAT1, and the cached
re-run returns a BAT1 battery without enumerating. -/
theorem C9_cache_roundtrip_witness :
    ∃ b2, (Battery.find envCached).battery = some b2 ∧ b2.name = "BAT1" ∧
      (Battery.find envCached).enumerated = false :=
  C9_cache_roundtrip envNoCache envCached batBAT1
    (by decide) rfl rfl (by decide) rfl rfl rfl

end Batmon
